import Mathlib

/-!
Verification of the time-alignment estimator of `plot_compare.py`
(repository `csv-plot-collection`).

The estimator consumes two data frames (already loaded from CSV), a sampling
interval, and an alignment configuration, and produces a scalar time offset.
Signals are sequences of floating-point samples; we embed samples into a
linear ordered field (`ℚ` for executable leaf functions, `ℝ` for the full
estimator, whose normalization step takes a square root).

NumPy / pandas primitives used by the source are embedded explicitly:
`np.diff`, `np.argmax` on a boolean array (first `true` index, `0` when the
array is all-`false`, a `ValueError` — here `none` — on an empty array),
`scipy.signal.find_peaks`, and pandas `.iloc` integer column selection
(negative indices count from the end).
-/

namespace PlotCompare

section Leaves

variable {α : Type} [LinearOrderedField α]

/-- Embedding of `np.diff(signal)`: the sequence of consecutive differences
`signal[i+1] - signal[i]`, one element shorter than the input. -/
def np_diff (s : List α) : List α :=
  (s.zip s.tail).map (fun p => p.2 - p.1)

/-- Index of the first `true` in a boolean list, `none` if there is none. -/
def firstTrueIdx : List Bool → Option Nat
  | [] => none
  | true :: _ => some 0
  | false :: rest => (firstTrueIdx rest).map (fun i => i + 1)

/-- Embedding of `np.argmax` on a boolean array: the index of the first `true`; `0` when
every entry is `false` (argmax of an all-`false` array); `none` models the
`ValueError` NumPy raises on an empty array. -/
def np_argmax (l : List Bool) : Option Nat :=
  match l with
  | [] => none
  | _ :: _ => some ((firstTrueIdx l).getD 0)

/-- Embedding of `find_rising_edge(signal, slope_threshold)` from `plot_compare.py`:
`np.argmax(np.diff(signal) > slope_threshold) + 1`.  `none` models the
`ValueError` raised when the difference array is empty (signal shorter
than two samples). -/
def find_rising_edge (signal : List α) (slope_threshold : α) : Option Nat :=
  (np_argmax ((np_diff signal).map (fun d => decide (slope_threshold < d)))).map
    (fun i => i + 1)

/-- Embedding of `rising_edge_alignment(signal1, signal2, sampling_interval_s,
slope_threshold=0.1, window_size=200)` from `plot_compare.py`.  The body
calls `find_rising_edge` with the literal threshold `0.1` on both signals
(the `slope_threshold` parameter is accepted but not forwarded) and returns
`(start1 - start2) * sampling_interval_s`. -/
def rising_edge_alignment (signal1 signal2 : List α) (sampling_interval_s : α)
    (slope_threshold : α := 1/10) (window_size : Nat := 200) : Option α :=
  match find_rising_edge signal1 (1/10), find_rising_edge signal2 (1/10) with
  | some start1, some start2 =>
      some ((((start1 : ℤ) - (start2 : ℤ) : ℤ) : α) * sampling_interval_s)
  | _, _ => none

/-- Modelled from the spec: `scipy.signal.find_peaks(x, height=h)` is an
external dependency (not part of this repository); per the spec it returns
the indices of local maxima exceeding the height threshold, in increasing
order. -/
def find_peaks (x : List α) (height : α) : List Nat :=
  (List.range x.length).filter (fun i =>
    match x.get? (i - 1), x.get? i, x.get? (i + 1) with
    | some a, some b, some c =>
        decide (a < b) && decide (c < b) && decide (height < b) && decide (0 < i)
    | _, _, _ => false)

/-- Embedding of `peak_alignment(signal1, signal2, sampling_interval_s, height=0.5)` from
`plot_compare.py`: if either signal has no detected peaks, fall back to
offset `0.0`; otherwise `lag = peaks1[0] - peaks2[0]` and
`offset = lag / sampling_interval_s` (division, not multiplication). -/
def peak_alignment (signal1 signal2 : List α) (sampling_interval_s : α)
    (height : α := 1/2) : α :=
  let peaks1 := find_peaks signal1 height
  let peaks2 := find_peaks signal2 height
  match peaks1, peaks2 with
  | [], _ => 0
  | _, [] => 0
  | p1 :: _, p2 :: _ =>
      (((p1 : ℤ) - (p2 : ℤ) : ℤ) : α) / sampling_interval_s

end Leaves

/-- The exceptions `estimate_offset` can propagate:
* `outOfRange hi1 hi2` — the `ValueError` raised by the explicit bounds
  check; it carries the upper ends of the valid ranges `[0, hi1]` and
  `[0, hi2]` reported in the message for file 1 and file 2;
* `indexError` — the `IndexError` pandas `.iloc` raises when a negative
  column index reaches below the first column;
* `valueError` — the `ValueError` `np.argmax` raises on an empty
  difference array (a signal shorter than two samples). -/
inductive EstimateError where
  | outOfRange (hi1 hi2 : ℤ)
  | indexError
  | valueError
deriving DecidableEq

/-- The message of the `ValueError` raised by the bounds check:
`f"Column index out of range. File1: 0–{df1.shape[1]-1}, File2: 0–{df2.shape[1]-1}"`. -/
def EstimateError.message : EstimateError → String
  | .outOfRange hi1 hi2 =>
      "Column index out of range. File1: 0–" ++ toString hi1 ++
        ", File2: 0–" ++ toString hi2
  | .indexError => "single positional indexer is out-of-bounds"
  | .valueError => "attempt to get argmax of an empty sequence"

/-- The configuration dictionary, restricted to the keys `estimate_offset`
reads.  Each field is `none` when the key is absent from the YAML file;
`config.get(key, default)` becomes `Option.getD`. -/
structure AlignmentConfig (α : Type) where
  alignment_method : Option String := none
  auto_align_column_file1 : Option ℤ := none
  auto_align_column_file2 : Option ℤ := none
  manual_offset_s : Option α := none

/-- A pandas data frame, reduced to what `estimate_offset` uses: its list of
columns (each a list of samples).  `df.shape[1]` is `df.cols.length`. -/
structure DataFrame (α : Type) where
  cols : List (List α)

/-- Python integer indexing into a sequence of length `n`: a negative index
counts from the end; `none` models the `IndexError` on an unrepresentable
index. -/
def pyColIndex (n : Nat) (i : ℤ) : Option Nat :=
  let j := if i < 0 then i + n else i
  if 0 ≤ j ∧ j < n then some j.toNat else none

/-- Embedding of `df.iloc[:, i].values`: select column `i` with Python indexing
semantics (negative `i` counts from the end). -/
def DataFrame.icol {α : Type} (df : DataFrame α) (i : ℤ) : Option (List α) :=
  (pyColIndex df.cols.length i).bind (fun k => df.cols.get? k)

/-- Embedding of `np.mean(s)`: the arithmetic mean `sum / length`. -/
noncomputable def np_mean (s : List ℝ) : ℝ := s.sum / s.length

/-- Embedding of the `np.var`-style population variance used by `np.std`: the mean of the
squared deviations from the mean (`ddof = 0`). -/
noncomputable def np_var (s : List ℝ) : ℝ :=
  (s.map (fun x => (x - np_mean s) ^ 2)).sum / s.length

/-- Embedding of `np.std(s)`: the square root of the population variance. -/
noncomputable def np_std (s : List ℝ) : ℝ := Real.sqrt (np_var s)

/-- The normalization step of `estimate_offset`:
`(signal - np.mean(signal)) / np.std(signal)`.  NumPy division of a
zero-deviation (constant) signal emits NaN values with a runtime warning and
does NOT raise; this embedding's total field division likewise returns junk
values there (zero, since every deviation is itself zero).  In both
semantics every strict comparison against a positive threshold or between
two samples of the degenerate signal is false, so all downstream results
agree. -/
noncomputable def normalize (signal : List ℝ) : List ℝ :=
  signal.map (fun x => (x - np_mean signal) / np_std signal)

/-- Embedding of `estimate_offset(df1, df2, sampling_interval_s, selected_columns, config)`
from `plot_compare.py` (the unused `selected_columns` argument is dropped):
read `alignment_method` (default `"cross_correlation"`) and the two column
indices (default `1`); raise `ValueError` when either index is `>=` the
column count of its frame; select and normalize both columns; then dispatch:
`"manual"` returns `manual_offset_s` (default `0.0`), `"peak_detection"`
runs `peak_alignment`, anything else runs `rising_edge_alignment`. -/
noncomputable def estimate_offset (df1 df2 : DataFrame ℝ) (sampling_interval_s : ℝ)
    (config : AlignmentConfig ℝ) : Except EstimateError ℝ :=
  let method := config.alignment_method.getD "cross_correlation"
  let col1_index := config.auto_align_column_file1.getD 1
  let col2_index := config.auto_align_column_file2.getD 1
  if (df1.cols.length : ℤ) ≤ col1_index ∨ (df2.cols.length : ℤ) ≤ col2_index then
    .error (.outOfRange ((df1.cols.length : ℤ) - 1) ((df2.cols.length : ℤ) - 1))
  else
    match df1.icol col1_index, df2.icol col2_index with
    | some sig1, some sig2 =>
        let signal1 := normalize sig1
        let signal2 := normalize sig2
        if method = "manual" then
          .ok (config.manual_offset_s.getD 0)
        else if method = "peak_detection" then
          .ok (peak_alignment signal1 signal2 sampling_interval_s)
        else
          (rising_edge_alignment signal1 signal2 sampling_interval_s).elim
            (.error .valueError) .ok
    | _, _ => .error .indexError

end PlotCompare

/-! ### Helper lemmas -/

namespace PlotCompare

lemma np_diff_length {α : Type} [LinearOrderedField α] (s : List α) :
    (np_diff s).length = s.length - 1 := by
  simp [np_diff, Nat.min_def]

lemma np_diff_getElem? {α : Type} [LinearOrderedField α] (s : List α) (i : Nat) :
    (np_diff s)[i]? = (s.zip s.tail)[i]?.map (fun p => p.2 - p.1) := by
  simp [np_diff]

lemma firstTrueIdx_eq_none_iff (l : List Bool) :
    firstTrueIdx l = none ↔ ∀ b ∈ l, b = false := by
  induction l with
  | nil => simp [firstTrueIdx]
  | cons b t ih => cases b <;> simp [firstTrueIdx, ih]

lemma firstTrueIdx_eq_some (l : List Bool) (i : Nat) (h : firstTrueIdx l = some i) :
    l[i]? = some true ∧ ∀ j < i, l[j]? = some false := by
  induction l generalizing i with
  | nil => simp [firstTrueIdx] at h
  | cons b t ih =>
    cases b with
    | true =>
      simp [firstTrueIdx] at h
      subst h
      simp
    | false =>
      simp only [firstTrueIdx, Option.map_eq_some'] at h
      obtain ⟨k, hk, rfl⟩ := h
      obtain ⟨h1, h2⟩ := ih k hk
      refine ⟨by simpa using h1, ?_⟩
      intro j hj
      cases j with
      | zero => simp
      | succ j' => simpa using h2 j' (by omega)

lemma np_argmax_spec (l : List Bool) (hne : l ≠ []) :
    ∃ i, np_argmax l = some i ∧
      ((l[i]? = some true ∧ ∀ j < i, l[j]? = some false) ∨
       (i = 0 ∧ ∀ b ∈ l, b = false)) := by
  cases l with
  | nil => exact absurd rfl hne
  | cons b t =>
    cases hft : firstTrueIdx (b :: t) with
    | none =>
      exact ⟨0, by simp [np_argmax, hft],
        Or.inr ⟨rfl, (firstTrueIdx_eq_none_iff _).mp hft⟩⟩
    | some k =>
      exact ⟨k, by simp [np_argmax, hft], Or.inl (firstTrueIdx_eq_some _ _ hft)⟩

/-- The full behaviour of `find_rising_edge` on a signal with at least two
samples: it returns `some r` with `1 ≤ r ≤ len - 1`, where `r - 1` is the
first index of the difference array strictly exceeding the threshold, or
`r = 1` when no difference exceeds it. -/
lemma find_rising_edge_spec_aux {α : Type} [LinearOrderedField α]
    (s : List α) (θ : α) (h : 2 ≤ s.length) :
    ∃ r, find_rising_edge s θ = some r ∧ 1 ≤ r ∧ r ≤ s.length - 1 ∧
      (((∃ d, (np_diff s)[r - 1]? = some d ∧ θ < d) ∧
          ∀ j < r - 1, ∀ d, (np_diff s)[j]? = some d → ¬ θ < d) ∨
        (r = 1 ∧ ∀ d ∈ np_diff s, ¬ θ < d)) := by
  have hlen : (np_diff s).length = s.length - 1 := np_diff_length s
  set bl : List Bool := (np_diff s).map (fun d => decide (θ < d)) with hbl
  have hblne : bl ≠ [] := by
    intro hnil
    have : bl.length = 0 := by rw [hnil]; rfl
    rw [hbl, List.length_map, hlen] at this
    omega
  obtain ⟨i, hargmax, hspec⟩ := np_argmax_spec bl hblne
  have hblget : ∀ j : Nat, bl[j]? = (np_diff s)[j]?.map (fun d => decide (θ < d)) := by
    intro j
    rw [hbl, List.getElem?_map]
  refine ⟨i + 1, ?_, ?_, ?_, ?_⟩
  · rw [find_rising_edge, ← hbl, hargmax]
    rfl
  · omega
  · rcases hspec with ⟨htrue, _⟩ | ⟨rfl, _⟩
    · have : i < bl.length := by
        rcases List.getElem?_eq_some.mp htrue with ⟨hlt, _⟩
        exact hlt
      rw [hbl, List.length_map, hlen] at this
      omega
    · omega
  · rcases hspec with ⟨htrue, hbefore⟩ | ⟨rfl, hall⟩
    · left
      constructor
      · rw [hblget i] at htrue
        rcases Option.map_eq_some'.mp htrue with ⟨d, hd, hdec⟩
        exact ⟨d, by simpa using hd, of_decide_eq_true hdec⟩
      · intro j hj d hd hlt
        have := hbefore j (by omega)
        rw [hblget j, hd] at this
        simp only [Option.map_some'] at this
        have : decide (θ < d) = false := by simpa using this
        exact absurd hlt (of_decide_eq_false this)
    · right
      refine ⟨rfl, ?_⟩
      intro d hd hlt
      have : decide (θ < d) ∈ bl := by
        rw [hbl]
        exact List.mem_map_of_mem _ hd
      have := hall _ this
      exact absurd hlt (of_decide_eq_false this)

/-! ### Claim theorems: leaf functions -/

/-- Claim C2: for every signal of length at least 2 and every threshold,
`find_rising_edge` returns 1 plus the index of the first element of the
first-difference sequence that strictly exceeds the threshold; if no
difference strictly exceeds the threshold it returns exactly 1, and does
not raise an error. -/
theorem find_rising_edge_first_exceeding {α : Type} [LinearOrderedField α]
    (s : List α) (θ : α) (h : 2 ≤ s.length) :
    ∃ r, find_rising_edge s θ = some r ∧
      (((∃ d, (np_diff s)[r - 1]? = some d ∧ θ < d) ∧
          ∀ j < r - 1, ∀ d, (np_diff s)[j]? = some d → ¬ θ < d) ∨
        (r = 1 ∧ ∀ d ∈ np_diff s, ¬ θ < d)) := by
  obtain ⟨r, hr, -, -, hchar⟩ := find_rising_edge_spec_aux s θ h
  exact ⟨r, hr, hchar⟩

theorem find_rising_edge_first_exceeding_witness :
    2 ≤ ([0, 0, 2, 0] : List ℚ).length ∧
    (∃ r, find_rising_edge ([0, 0, 2, 0] : List ℚ) 1 = some r ∧
      (((∃ d, (np_diff ([0, 0, 2, 0] : List ℚ))[r - 1]? = some d ∧ 1 < d) ∧
          ∀ j < r - 1, ∀ d, (np_diff ([0, 0, 2, 0] : List ℚ))[j]? = some d → ¬ 1 < d) ∨
        (r = 1 ∧ ∀ d ∈ np_diff ([0, 0, 2, 0] : List ℚ), ¬ 1 < d))) :=
  ⟨by norm_num, find_rising_edge_first_exceeding ([0, 0, 2, 0] : List ℚ) 1 (by norm_num)⟩

/-- Claim C9 (amended): for every signal of length at least 2,
`find_rising_edge` totally returns an index in `[1, len - 1]`.  As stated
the claim fails: on a signal with fewer than two samples the difference
array is empty and `np.argmax` raises a `ValueError`
(see `find_rising_edge_short_signal_raises`). -/
theorem find_rising_edge_index_range {α : Type} [LinearOrderedField α]
    (s : List α) (θ : α) (h : 2 ≤ s.length) :
    ∃ r, find_rising_edge s θ = some r ∧ 1 ≤ r ∧ r ≤ s.length - 1 := by
  obtain ⟨r, hr, h1, h2, -⟩ := find_rising_edge_spec_aux s θ h
  exact ⟨r, hr, h1, h2⟩

theorem find_rising_edge_index_range_witness :
    2 ≤ ([5, 4, 3] : List ℚ).length ∧
    (∃ r, find_rising_edge ([5, 4, 3] : List ℚ) (1/10) = some r ∧
      1 ≤ r ∧ r ≤ ([5, 4, 3] : List ℚ).length - 1) :=
  ⟨by norm_num, find_rising_edge_index_range ([5, 4, 3] : List ℚ) (1/10) (by norm_num)⟩

/-- Claim C9 counterexample: on the one-sample signal `[5]` the difference
array is empty, `np.argmax` raises (`none`), so `find_rising_edge` is not
total on every input signal. -/
theorem find_rising_edge_short_signal_raises :
    find_rising_edge ([5] : List ℚ) (1/10) = none := by
  norm_num [find_rising_edge, np_diff, np_argmax]

/-- Claim C3 (amended): for signals of length at least 2 and a positive
sampling interval, `rising_edge_alignment` returns
`(edge_1 - edge_2) * sampling_interval` with both edges found by
`find_rising_edge` at the fixed threshold `0.1`, and the `slope_threshold`
parameter has no effect on the result.  As stated the claim fails: on
signals with fewer than two samples `find_rising_edge` raises, so no
offset is returned (see `rising_edge_alignment_short_signal_raises`). -/
theorem rising_edge_alignment_formula {α : Type} [LinearOrderedField α]
    (s1 s2 : List α) (dt θ : α)
    (h1 : 2 ≤ s1.length) (h2 : 2 ≤ s2.length) (hdt : 0 < dt) :
    (∃ e1 e2, find_rising_edge s1 (1/10) = some e1 ∧
      find_rising_edge s2 (1/10) = some e2 ∧
      rising_edge_alignment s1 s2 dt θ = some ((((e1 : ℤ) - (e2 : ℤ) : ℤ) : α) * dt)) ∧
    ∀ θ', rising_edge_alignment s1 s2 dt θ' = rising_edge_alignment s1 s2 dt θ := by
  obtain ⟨e1, he1, -, -, -⟩ := find_rising_edge_spec_aux s1 (1/10) h1
  obtain ⟨e2, he2, -, -, -⟩ := find_rising_edge_spec_aux s2 (1/10) h2
  refine ⟨⟨e1, e2, he1, he2, ?_⟩, fun θ' => rfl⟩
  simp only [rising_edge_alignment, he1, he2]

theorem rising_edge_alignment_formula_witness :
    2 ≤ ([0, 0, 2, 0] : List ℚ).length ∧ 2 ≤ ([0, 2, 0] : List ℚ).length ∧ (0 : ℚ) < 3 ∧
    ((∃ e1 e2, find_rising_edge ([0, 0, 2, 0] : List ℚ) (1/10) = some e1 ∧
        find_rising_edge ([0, 2, 0] : List ℚ) (1/10) = some e2 ∧
        rising_edge_alignment ([0, 0, 2, 0] : List ℚ) [0, 2, 0] 3 7 =
          some ((((e1 : ℤ) - (e2 : ℤ) : ℤ) : ℚ) * 3)) ∧
      ∀ θ', rising_edge_alignment ([0, 0, 2, 0] : List ℚ) [0, 2, 0] 3 θ' =
        rising_edge_alignment ([0, 0, 2, 0] : List ℚ) [0, 2, 0] 3 7) :=
  ⟨by norm_num, by norm_num, by norm_num,
    rising_edge_alignment_formula ([0, 0, 2, 0] : List ℚ) [0, 2, 0] 3 7
      (by norm_num) (by norm_num) (by norm_num)⟩

/-- Claim C3 counterexample: on one-sample signals the strategy propagates
the `ValueError` from `np.argmax` instead of returning an offset. -/
theorem rising_edge_alignment_short_signal_raises :
    rising_edge_alignment ([3] : List ℚ) [3] 1 = none := by
  norm_num [rising_edge_alignment, find_rising_edge, np_diff, np_argmax]

/-- Claim C4: whenever the peak finder detects at least one peak in each
signal, `peak_alignment` returns
`(first_peak_index_1 - first_peak_index_2) / sampling_interval` — dividing
the index difference by the sampling interval, not multiplying. -/
theorem peak_alignment_divides_by_interval {α : Type} [LinearOrderedField α]
    (s1 s2 : List α) (dt height : α) (p1 p2 : Nat) (t1 t2 : List Nat)
    (h1 : find_peaks s1 height = p1 :: t1) (h2 : find_peaks s2 height = p2 :: t2) :
    peak_alignment s1 s2 dt height = (((p1 : ℤ) - (p2 : ℤ) : ℤ) : α) / dt := by
  simp only [peak_alignment, h1, h2]

theorem peak_alignment_divides_by_interval_witness :
    find_peaks ([0, 1, 0] : List ℚ) (1/2) = 1 :: [] ∧
    find_peaks ([0, 0, 1, 0] : List ℚ) (1/2) = 2 :: [] ∧
    peak_alignment ([0, 1, 0] : List ℚ) [0, 0, 1, 0] 2 (1/2) =
      ((((1 : ℤ) - (2 : ℤ) : ℤ)) : ℚ) / 2 :=
  ⟨by norm_num [find_peaks, List.range_succ, List.get?],
   by norm_num [find_peaks, List.range_succ, List.get?],
   peak_alignment_divides_by_interval ([0, 1, 0] : List ℚ) [0, 0, 1, 0] 2 (1/2) 1 2 [] []
     (by norm_num [find_peaks, List.range_succ, List.get?])
     (by norm_num [find_peaks, List.range_succ, List.get?])⟩

/-- Claim C5: whenever the peak finder detects zero peaks in at least one
signal, `peak_alignment` does not raise and returns exactly `0.0`. -/
theorem peak_alignment_zero_when_no_peaks {α : Type} [LinearOrderedField α]
    (s1 s2 : List α) (dt height : α)
    (h : find_peaks s1 height = [] ∨ find_peaks s2 height = []) :
    peak_alignment s1 s2 dt height = 0 := by
  rcases h with h | h
  · simp [peak_alignment, h]
  · cases hl : find_peaks s1 height <;> simp [peak_alignment, h, hl]

theorem peak_alignment_zero_when_no_peaks_witness :
    (find_peaks ([0, 0, 0] : List ℚ) (1/2) = [] ∨
     find_peaks ([0, 1, 0] : List ℚ) (1/2) = []) ∧
    peak_alignment ([0, 0, 0] : List ℚ) [0, 1, 0] 2 (1/2) = 0 :=
  ⟨Or.inl (by norm_num [find_peaks, List.range_succ, List.get?]),
   peak_alignment_zero_when_no_peaks ([0, 0, 0] : List ℚ) [0, 1, 0] 2 (1/2)
     (Or.inl (by norm_num [find_peaks, List.range_succ, List.get?]))⟩

/-! ### Helper lemmas: the estimator -/

lemma icol_of_inRange {α : Type} (df : DataFrame α) (i : ℤ)
    (h0 : 0 ≤ i) (h1 : i < (df.cols.length : ℤ)) :
    df.icol i = df.cols.get? i.toNat := by
  simp only [DataFrame.icol, pyColIndex]
  rw [if_neg (by omega : ¬ i < 0), if_pos ⟨h0, h1⟩]
  rfl

lemma icol_isSome_of_inRange {α : Type} (df : DataFrame α) (i : ℤ)
    (h0 : 0 ≤ i) (h1 : i < (df.cols.length : ℤ)) :
    ∃ c, df.icol i = some c := by
  rw [icol_of_inRange df i h0 h1]
  have hlt : i.toNat < df.cols.length := by omega
  exact ⟨df.cols.get ⟨i.toNat, hlt⟩, List.get?_eq_get hlt⟩

/-- Once the bounds check passes and both columns are selected,
`estimate_offset` is the three-way dispatch on the method string over the
two normalized signals. -/
lemma estimate_offset_eq_of_icol (df1 df2 : DataFrame ℝ) (dt : ℝ)
    (cfg : AlignmentConfig ℝ) (sig1 sig2 : List ℝ)
    (hn : ¬ ((df1.cols.length : ℤ) ≤ cfg.auto_align_column_file1.getD 1 ∨
      (df2.cols.length : ℤ) ≤ cfg.auto_align_column_file2.getD 1))
    (hs1 : df1.icol (cfg.auto_align_column_file1.getD 1) = some sig1)
    (hs2 : df2.icol (cfg.auto_align_column_file2.getD 1) = some sig2) :
    estimate_offset df1 df2 dt cfg =
      (if cfg.alignment_method.getD "cross_correlation" = "manual" then
        .ok (cfg.manual_offset_s.getD 0)
      else if cfg.alignment_method.getD "cross_correlation" = "peak_detection" then
        .ok (peak_alignment (normalize sig1) (normalize sig2) dt)
      else
        (rising_edge_alignment (normalize sig1) (normalize sig2) dt).elim
          (.error .valueError) .ok) := by
  simp only [estimate_offset]
  rw [if_neg hn, hs1, hs2]

/-- When the first selected column index reaches pandas `.iloc` but is not
representable, `estimate_offset` propagates the `IndexError`. -/
lemma estimate_offset_eq_of_icol_none (df1 df2 : DataFrame ℝ) (dt : ℝ)
    (cfg : AlignmentConfig ℝ)
    (hn : ¬ ((df1.cols.length : ℤ) ≤ cfg.auto_align_column_file1.getD 1 ∨
      (df2.cols.length : ℤ) ≤ cfg.auto_align_column_file2.getD 1))
    (hs1 : df1.icol (cfg.auto_align_column_file1.getD 1) = none) :
    estimate_offset df1 df2 dt cfg = .error .indexError := by
  simp only [estimate_offset]
  rw [if_neg hn, hs1]

/-! ### Claim theorems: the estimator -/

/-- Claim C1: for in-range column indices and a positive sampling interval,
`estimate_offset` selects a strategy solely by the configured method
string: `"manual"` returns the configured `manual_offset_s` verbatim
(regardless of signal content), `"peak_detection"` invokes the
peak-detection strategy, and every other value (including
`"cross_correlation"` and an unset method, which defaults to
`"cross_correlation"`) invokes the rising-edge strategy. -/
theorem estimate_offset_dispatch (df1 df2 : DataFrame ℝ) (dt : ℝ)
    (cfg : AlignmentConfig ℝ)
    (h1 : 0 ≤ cfg.auto_align_column_file1.getD 1 ∧
      cfg.auto_align_column_file1.getD 1 < (df1.cols.length : ℤ))
    (h2 : 0 ≤ cfg.auto_align_column_file2.getD 1 ∧
      cfg.auto_align_column_file2.getD 1 < (df2.cols.length : ℤ))
    (hdt : 0 < dt) :
    ∃ sig1 sig2,
      df1.icol (cfg.auto_align_column_file1.getD 1) = some sig1 ∧
      df2.icol (cfg.auto_align_column_file2.getD 1) = some sig2 ∧
      (cfg.alignment_method.getD "cross_correlation" = "manual" →
        estimate_offset df1 df2 dt cfg = .ok (cfg.manual_offset_s.getD 0)) ∧
      (cfg.alignment_method.getD "cross_correlation" = "peak_detection" →
        estimate_offset df1 df2 dt cfg =
          .ok (peak_alignment (normalize sig1) (normalize sig2) dt)) ∧
      (cfg.alignment_method.getD "cross_correlation" ≠ "manual" →
        cfg.alignment_method.getD "cross_correlation" ≠ "peak_detection" →
        estimate_offset df1 df2 dt cfg =
          (rising_edge_alignment (normalize sig1) (normalize sig2) dt).elim
            (.error .valueError) .ok) := by
  obtain ⟨sig1, hs1⟩ := icol_isSome_of_inRange df1 _ h1.1 h1.2
  obtain ⟨sig2, hs2⟩ := icol_isSome_of_inRange df2 _ h2.1 h2.2
  have hn : ¬ ((df1.cols.length : ℤ) ≤ cfg.auto_align_column_file1.getD 1 ∨
      (df2.cols.length : ℤ) ≤ cfg.auto_align_column_file2.getD 1) := by
    push_neg
    exact ⟨h1.2, h2.2⟩
  have hbase := estimate_offset_eq_of_icol df1 df2 dt cfg sig1 sig2 hn hs1 hs2
  refine ⟨sig1, sig2, hs1, hs2, ?_, ?_, ?_⟩
  · intro hm
    rw [hbase, if_pos hm]
  · intro hp
    have hm : ¬ cfg.alignment_method.getD "cross_correlation" = "manual" := by
      rw [hp]
      simp
    rw [hbase, if_neg hm, if_pos hp]
  · intro hm hp
    rw [hbase, if_neg hm, if_neg hp]

theorem estimate_offset_dispatch_witness :
    estimate_offset ⟨[[1, 2], [3, 4]]⟩ ⟨[[5, 6]]⟩ 1
      { alignment_method := some "manual", auto_align_column_file1 := some 0,
        auto_align_column_file2 := some 0, manual_offset_s := some 5 } = .ok 5 := by
  obtain ⟨sig1, sig2, -, -, hman, -, -⟩ :=
    estimate_offset_dispatch ⟨[[1, 2], [3, 4]]⟩ ⟨[[5, 6]]⟩ 1
      { alignment_method := some "manual", auto_align_column_file1 := some 0,
        auto_align_column_file2 := some 0, manual_offset_s := some 5 }
      (by simp) (by simp) (by norm_num)
  exact hman rfl

/-- Claim C6 (amended): the out-of-range `ValueError` — whose payload states
the valid ranges `[0, ncols-1]` of both files — is raised exactly when a
configured column index is greater than or equal to its frame's column
count, before any signal is selected or normalized; for indices in
`[0, ncols-1]` it is never raised.  As stated the claim fails: a negative
index is also outside `[0, ncols-1]`, yet the check `col >= ncols` lets it
through (see `estimate_offset_negative_index_passes_check`). -/
theorem estimate_offset_range_check (df1 df2 : DataFrame ℝ) (dt : ℝ)
    (cfg : AlignmentConfig ℝ) :
    (((df1.cols.length : ℤ) ≤ cfg.auto_align_column_file1.getD 1 ∨
        (df2.cols.length : ℤ) ≤ cfg.auto_align_column_file2.getD 1) →
      estimate_offset df1 df2 dt cfg =
        .error (.outOfRange ((df1.cols.length : ℤ) - 1) ((df2.cols.length : ℤ) - 1))) ∧
    ((0 ≤ cfg.auto_align_column_file1.getD 1 ∧
        cfg.auto_align_column_file1.getD 1 < (df1.cols.length : ℤ)) →
     (0 ≤ cfg.auto_align_column_file2.getD 1 ∧
        cfg.auto_align_column_file2.getD 1 < (df2.cols.length : ℤ)) →
      ∀ a b : ℤ, estimate_offset df1 df2 dt cfg ≠ .error (.outOfRange a b)) := by
  constructor
  · intro h
    simp only [estimate_offset]
    rw [if_pos h]
  · intro h1 h2 a b hcontra
    obtain ⟨sig1, hs1⟩ := icol_isSome_of_inRange df1 _ h1.1 h1.2
    obtain ⟨sig2, hs2⟩ := icol_isSome_of_inRange df2 _ h2.1 h2.2
    have hn : ¬ ((df1.cols.length : ℤ) ≤ cfg.auto_align_column_file1.getD 1 ∨
        (df2.cols.length : ℤ) ≤ cfg.auto_align_column_file2.getD 1) := by
      push_neg
      exact ⟨h1.2, h2.2⟩
    rw [estimate_offset_eq_of_icol df1 df2 dt cfg sig1 sig2 hn hs1 hs2] at hcontra
    split_ifs at hcontra
    all_goals first
      | exact Except.noConfusion hcontra
      | cases hopt : rising_edge_alignment (normalize sig1) (normalize sig2) dt with
        | none =>
          rw [hopt] at hcontra
          simp only [Option.elim] at hcontra
          injection hcontra with h
          exact EstimateError.noConfusion h
        | some o =>
          rw [hopt] at hcontra
          simp only [Option.elim] at hcontra
          exact Except.noConfusion hcontra

theorem estimate_offset_range_check_witness :
    estimate_offset ⟨[[1, 2], [3, 4]]⟩ ⟨[[5, 6]]⟩ 1
      { alignment_method := some "manual", auto_align_column_file1 := some 5,
        auto_align_column_file2 := some 0, manual_offset_s := some 5 } =
      .error (.outOfRange 1 0) ∧
    estimate_offset ⟨[[1, 2], [3, 4]]⟩ ⟨[[5, 6]]⟩ 1
      { alignment_method := some "manual", auto_align_column_file1 := some 0,
        auto_align_column_file2 := some 0, manual_offset_s := some 5 } ≠
      .error (.outOfRange 7 7) :=
  ⟨(estimate_offset_range_check ⟨[[1, 2], [3, 4]]⟩ ⟨[[5, 6]]⟩ 1
      { alignment_method := some "manual", auto_align_column_file1 := some 5,
        auto_align_column_file2 := some 0, manual_offset_s := some 5 }).1
      (Or.inl (by simp)),
   (estimate_offset_range_check ⟨[[1, 2], [3, 4]]⟩ ⟨[[5, 6]]⟩ 1
      { alignment_method := some "manual", auto_align_column_file1 := some 0,
        auto_align_column_file2 := some 0, manual_offset_s := some 5 }).2
      (by simp) (by simp) 7 7⟩

/-- Claim C6 counterexample: the index `-1` on a two-column frame is outside
the claimed bounds `[0, 1]`, yet `estimate_offset` raises no error and
returns the manual offset — the check only rejects indices `>= ncols`. -/
theorem estimate_offset_out_of_bounds_negative_no_error :
    estimate_offset ⟨[[1, 2], [3, 4]]⟩ ⟨[[5, 6]]⟩ 1
      { alignment_method := some "manual", auto_align_column_file1 := some (-1),
        auto_align_column_file2 := some 0, manual_offset_s := some 5 } = .ok 5 := by
  norm_num [estimate_offset, DataFrame.icol, pyColIndex, List.get?]

/-- Claim C7 (amended): normalizing a selected constant (zero standard
deviation) signal does not raise any error: NumPy's division of the signal
by zero yields NaN samples with only a runtime warning, and
`estimate_offset` still returns a value — with `method="manual"` it
returns `manual_offset_s` unchanged. -/
theorem estimate_offset_constant_signal_returns (df1 df2 : DataFrame ℝ) (dt : ℝ)
    (cfg : AlignmentConfig ℝ) (sig1 : List ℝ) (c : ℝ)
    (h1 : 0 ≤ cfg.auto_align_column_file1.getD 1 ∧
      cfg.auto_align_column_file1.getD 1 < (df1.cols.length : ℤ))
    (h2 : 0 ≤ cfg.auto_align_column_file2.getD 1 ∧
      cfg.auto_align_column_file2.getD 1 < (df2.cols.length : ℤ))
    (hs1 : df1.icol (cfg.auto_align_column_file1.getD 1) = some sig1)
    (hconst : ∀ x ∈ sig1, x = c)
    (hm : cfg.alignment_method.getD "cross_correlation" = "manual") :
    estimate_offset df1 df2 dt cfg = .ok (cfg.manual_offset_s.getD 0) := by
  obtain ⟨sig2, hs2⟩ := icol_isSome_of_inRange df2 _ h2.1 h2.2
  have hn : ¬ ((df1.cols.length : ℤ) ≤ cfg.auto_align_column_file1.getD 1 ∨
      (df2.cols.length : ℤ) ≤ cfg.auto_align_column_file2.getD 1) := by
    push_neg
    exact ⟨h1.2, h2.2⟩
  rw [estimate_offset_eq_of_icol df1 df2 dt cfg sig1 sig2 hn hs1 hs2, if_pos hm]

theorem estimate_offset_constant_signal_returns_witness :
    DataFrame.icol ⟨[[2, 2, 2]]⟩ ((some (0 : ℤ)).getD 1) = some [2, 2, 2] ∧
    (∀ x ∈ ([2, 2, 2] : List ℝ), x = 2) ∧
    estimate_offset ⟨[[2, 2, 2]]⟩ ⟨[[0, 1, 0]]⟩ 1
      { alignment_method := some "manual", auto_align_column_file1 := some 0,
        auto_align_column_file2 := some 0, manual_offset_s := some 5 } = .ok 5 :=
  ⟨by norm_num [DataFrame.icol, pyColIndex, List.get?],
   by intro x hx; simpa using hx,
   estimate_offset_constant_signal_returns ⟨[[2, 2, 2]]⟩ ⟨[[0, 1, 0]]⟩ 1
     { alignment_method := some "manual", auto_align_column_file1 := some 0,
       auto_align_column_file2 := some 0, manual_offset_s := some 5 } [2, 2, 2] 2
     (by simp) (by simp)
     (by norm_num [DataFrame.icol, pyColIndex, List.get?])
     (by intro x hx; simpa using hx) rfl⟩

/-- Claim C7 counterexample: the selected column `[2, 2, 2]` of file 1 is
constant (standard deviation zero), yet `estimate_offset` raises nothing
and returns the manual offset `5.0` — NumPy's division by zero produces
NaN values instead of an exception. -/
theorem estimate_offset_constant_signal_no_error :
    estimate_offset ⟨[[2, 2, 2]]⟩ ⟨[[0, 1, 0]]⟩ 1
      { alignment_method := some "manual", auto_align_column_file1 := some 0,
        auto_align_column_file2 := some 0, manual_offset_s := some 5 } = .ok 5 := by
  norm_num [estimate_offset, DataFrame.icol, pyColIndex, List.get?]

/-- Claim C10: a negative configured column index passes the bounds check —
which only rejects indices `>= ncols` — so no out-of-range error is
raised, and (when representable) pandas `.iloc` selects the column counted
from the end of the frame. -/
theorem estimate_offset_negative_index (df1 df2 : DataFrame ℝ) (dt : ℝ)
    (cfg : AlignmentConfig ℝ)
    (hneg : cfg.auto_align_column_file1.getD 1 < 0)
    (h2 : 0 ≤ cfg.auto_align_column_file2.getD 1 ∧
      cfg.auto_align_column_file2.getD 1 < (df2.cols.length : ℤ)) :
    (∀ a b : ℤ, estimate_offset df1 df2 dt cfg ≠ .error (.outOfRange a b)) ∧
    (-(df1.cols.length : ℤ) ≤ cfg.auto_align_column_file1.getD 1 →
      df1.icol (cfg.auto_align_column_file1.getD 1) =
        df1.cols.get? (cfg.auto_align_column_file1.getD 1 + (df1.cols.length : ℤ)).toNat ∧
      (cfg.auto_align_column_file1.getD 1 + (df1.cols.length : ℤ)).toNat <
        df1.cols.length) := by
  have hn : ¬ ((df1.cols.length : ℤ) ≤ cfg.auto_align_column_file1.getD 1 ∨
      (df2.cols.length : ℤ) ≤ cfg.auto_align_column_file2.getD 1) := by
    push_neg
    exact ⟨by omega, h2.2⟩
  constructor
  · intro a b hcontra
    obtain ⟨sig2, hs2⟩ := icol_isSome_of_inRange df2 _ h2.1 h2.2
    cases hic : df1.icol (cfg.auto_align_column_file1.getD 1) with
    | none =>
      rw [estimate_offset_eq_of_icol_none df1 df2 dt cfg hn hic] at hcontra
      injection hcontra with h
      exact EstimateError.noConfusion h
    | some sig1 =>
      rw [estimate_offset_eq_of_icol df1 df2 dt cfg sig1 sig2 hn hic hs2] at hcontra
      split_ifs at hcontra
      all_goals first
        | exact Except.noConfusion hcontra
        | cases hopt : rising_edge_alignment (normalize sig1) (normalize sig2) dt with
          | none =>
            rw [hopt] at hcontra
            simp only [Option.elim] at hcontra
            injection hcontra with h
            exact EstimateError.noConfusion h
          | some o =>
            rw [hopt] at hcontra
            simp only [Option.elim] at hcontra
            exact Except.noConfusion hcontra
  · intro hge
    have hlt : cfg.auto_align_column_file1.getD 1 + (df1.cols.length : ℤ) <
        (df1.cols.length : ℤ) := by omega
    constructor
    · simp only [DataFrame.icol, pyColIndex]
      rw [if_pos hneg, if_pos ⟨by omega, by omega⟩]
      rfl
    · omega

theorem estimate_offset_negative_index_witness :
    estimate_offset ⟨[[1, 2], [3, 4]]⟩ ⟨[[5, 6]]⟩ 1
      { alignment_method := some "manual", auto_align_column_file1 := some (-1),
        auto_align_column_file2 := some 0, manual_offset_s := some 7 } ≠
      .error (.outOfRange 1 0) :=
  (estimate_offset_negative_index ⟨[[1, 2], [3, 4]]⟩ ⟨[[5, 6]]⟩ 1
    { alignment_method := some "manual", auto_align_column_file1 := some (-1),
      auto_align_column_file2 := some 0, manual_offset_s := some 7 }
    (by simp) (by simp)).1 1 0

/-! ### Helper lemmas: the end-to-end scenario of claim C8 -/

lemma mean_sig1 : np_mean [0, 0, 0, 0, 1, 1, 1, 1] = 1/2 := by
  norm_num [np_mean]

lemma var_sig1 : np_var [0, 0, 0, 0, 1, 1, 1, 1] = 1/4 := by
  simp only [np_var, mean_sig1]
  norm_num

lemma std_sig1 : np_std [0, 0, 0, 0, 1, 1, 1, 1] = 1/2 := by
  rw [np_std, var_sig1, show (1/4 : ℝ) = (1/2)^2 by norm_num,
    Real.sqrt_sq (by norm_num : (0:ℝ) ≤ 1/2)]

lemma normalize_sig1 :
    normalize [0, 0, 0, 0, 1, 1, 1, 1] = [-1, -1, -1, -1, 1, 1, 1, 1] := by
  simp only [normalize, mean_sig1, std_sig1]
  norm_num

lemma edge_sig1 :
    find_rising_edge (normalize [0, 0, 0, 0, 1, 1, 1, 1]) (1/10) = some 4 := by
  rw [normalize_sig1]
  norm_num [find_rising_edge, np_diff, np_argmax, firstTrueIdx]

lemma mean_sig2 : np_mean [0, 0, 1, 1, 1, 1, 1, 1] = 3/4 := by
  norm_num [np_mean]

lemma var_sig2 : np_var [0, 0, 1, 1, 1, 1, 1, 1] = 3/16 := by
  simp only [np_var, mean_sig2]
  norm_num

lemma std_sig2_pos : 0 < np_std [0, 0, 1, 1, 1, 1, 1, 1] := by
  rw [np_std, var_sig2]
  exact Real.sqrt_pos.mpr (by norm_num)

lemma std_sig2_lt : np_std [0, 0, 1, 1, 1, 1, 1, 1] < 10 := by
  rw [np_std, var_sig2]
  exact (Real.sqrt_lt' (by norm_num)).mpr (by norm_num)

lemma diff_normalize_sig2 :
    np_diff (normalize [0, 0, 1, 1, 1, 1, 1, 1]) =
      [0, 1 / np_std [0, 0, 1, 1, 1, 1, 1, 1], 0, 0, 0, 0, 0] := by
  simp only [normalize, mean_sig2]
  norm_num [np_diff, div_sub_div_same]

lemma edge_sig2 :
    find_rising_edge (normalize [0, 0, 1, 1, 1, 1, 1, 1]) (1/10) = some 2 := by
  have hgt : (1:ℝ)/10 < (np_std [0, 0, 1, 1, 1, 1, 1, 1])⁻¹ := by
    rw [show (np_std [0, 0, 1, 1, 1, 1, 1, 1])⁻¹ = 1 / np_std [0, 0, 1, 1, 1, 1, 1, 1] from
      (one_div _).symm]
    rw [div_lt_div_iff₀ (by norm_num) std_sig2_pos]
    nlinarith [std_sig2_lt]
  rw [find_rising_edge, diff_normalize_sig2]
  norm_num [np_argmax, firstTrueIdx, eq_true hgt]

/-- Claim C8: for `signal1 = [0,0,0,0,1,1,1,1]`, `signal2 = [0,0,1,1,1,1,1,1]`,
sampling interval `0.1` seconds and the rising-edge strategy (unset method,
fixed threshold `0.1`), the estimator — after normalizing both signals —
finds the edge of signal 1 at index 4 and the edge of signal 2 at index 2
and returns the offset `(4 - 2) * 0.1 = 0.2` seconds. -/
theorem estimate_offset_end_to_end :
    find_rising_edge (normalize [0, 0, 0, 0, 1, 1, 1, 1]) (1/10) = some 4 ∧
    find_rising_edge (normalize [0, 0, 1, 1, 1, 1, 1, 1]) (1/10) = some 2 ∧
    estimate_offset ⟨[[0, 0, 0, 0, 1, 1, 1, 1]]⟩ ⟨[[0, 0, 1, 1, 1, 1, 1, 1]]⟩ (1/10)
      { alignment_method := none, auto_align_column_file1 := some 0,
        auto_align_column_file2 := some 0, manual_offset_s := none } = .ok (1/5) := by
  refine ⟨edge_sig1, edge_sig2, ?_⟩
  have hs1 : DataFrame.icol (⟨[[0, 0, 0, 0, 1, 1, 1, 1]]⟩ : DataFrame ℝ)
      (({ alignment_method := none, auto_align_column_file1 := some 0,
          auto_align_column_file2 := some 0,
          manual_offset_s := none } : AlignmentConfig ℝ).auto_align_column_file1.getD 1) =
      some [0, 0, 0, 0, 1, 1, 1, 1] := by
    norm_num [DataFrame.icol, pyColIndex, List.get?]
  have hs2 : DataFrame.icol (⟨[[0, 0, 1, 1, 1, 1, 1, 1]]⟩ : DataFrame ℝ)
      (({ alignment_method := none, auto_align_column_file1 := some 0,
          auto_align_column_file2 := some 0,
          manual_offset_s := none } : AlignmentConfig ℝ).auto_align_column_file2.getD 1) =
      some [0, 0, 1, 1, 1, 1, 1, 1] := by
    norm_num [DataFrame.icol, pyColIndex, List.get?]
  rw [estimate_offset_eq_of_icol _ _ _ _ _ _ (by simp) hs1 hs2]
  rw [if_neg (by simp), if_neg (by simp)]
  rw [rising_edge_alignment, edge_sig1, edge_sig2]
  norm_num

end PlotCompare


